import Mathlib

/-!
Verification of the intrusion-detection and IP-blocking engine of the
CyberLogSystem repository.  The definitions below are a shallow embedding of
the JavaScript source:

* BlockedIP model (mongoose statics isBlocked / blockIP / unblockIP /
  cleanupExpiredBlocks) — src/unnamed/part_014.
* IntrusionDetectionService (analyzeLoginAttempt, analyzeHttpRequest,
  isIPBlocked, countRecentFailedLogins) —
  src/CyberLogSystem/secure/backend/src/services/reportService.js.
* Middleware (checkBlockedIP, analyzeRequest, trackRequestPatterns) —
  src/CyberLogSystem/secure/backend/src/middleware/intrusionDetectionMiddleware.js.
* The failed-login controller flow — authController.js.

Times are Nat milliseconds (JavaScript Date.now()).  Mongo stores are lists
of records; the unique index on ipAddress is stated as the Nodup invariant
uniqueAddr and proved preserved.  Possibly-failing storage operations are
embedded with Except (a rejected promise is Except.error); JavaScript
try/catch blocks become matches on the Except value.
-/

namespace CyberIDS

/-! ## Definitions: shallow embedding of the engine -/

/-- Embedding of one BlockedIP document.  expiresAt is a millisecond
timestamp, none meaning a permanent block. -/
structure BlockedIPRecord where
  ipAddress : String
  reason : String
  blockType : String
  blockedBy : Option String
  expiresAt : Option Nat
  isActive : Bool
  violationCount : Nat
  notes : String
  unblockedBy : Option String
  deriving Repr, DecidableEq

abbrev BlockRegistry := List BlockedIPRecord

/-- Embedding of blockedIPSchema.statics.isBlocked: findOne for an active
record whose expiresAt is null or strictly greater than now, coerced to a
boolean. -/
def isBlocked (reg : BlockRegistry) (ip : String) (now : Nat) : Bool :=
  reg.any fun r =>
    r.ipAddress == ip && r.isActive &&
      (match r.expiresAt with
       | none => true
       | some e => decide (now < e))

/-- Options object of blockIP.  duration is in minutes; none is the JS null
default. -/
structure BlockOptions where
  blockType : String := "automatic"
  blockedBy : Option String := none
  duration : Option Nat := none
  notes : String := ""
  deriving Repr, DecidableEq

/-- Embedding of the expiry computation of blockIP, the conditional
expression on duration with the null branch.  JavaScript truthiness makes
duration 0 take the null branch exactly like duration null. -/
def expiryOf (duration : Option Nat) (now : Nat) : Option Nat :=
  match duration with
  | none => none
  | some 0 => none
  | some d => some (now + d * 60 * 1000)

/-- Embedding of blockedIPSchema.statics.blockIP: findOneAndUpdate on
ipAddress with upsert.  An existing record has reason, blockType, blockedBy,
expiresAt, isActive and notes overwritten and violationCount incremented
($inc); otherwise a new record is created, whose violationCount the $inc
leaves at 1. -/
def blockIP (reg : BlockRegistry) (ip reason : String) (opts : BlockOptions)
    (now : Nat) : BlockRegistry :=
  let expiresAt := expiryOf opts.duration now
  if reg.any (fun r => r.ipAddress == ip) then
    reg.map fun r =>
      if r.ipAddress == ip then
        { r with
          reason := reason
          blockType := opts.blockType
          blockedBy := opts.blockedBy
          expiresAt := expiresAt
          isActive := true
          notes := opts.notes
          violationCount := r.violationCount + 1 }
      else r
  else
    reg ++ [{ ipAddress := ip
              reason := reason
              blockType := opts.blockType
              blockedBy := opts.blockedBy
              expiresAt := expiresAt
              isActive := true
              violationCount := 1
              notes := opts.notes
              unblockedBy := none }]

/-- Embedding of blockedIPSchema.statics.unblockIP: findOneAndUpdate setting
isActive to false and recording the unblocking actor; a no-op when no record
matches. -/
def unblockIP (reg : BlockRegistry) (ip : String) (actor : Option String) :
    BlockRegistry :=
  reg.map fun r =>
    if r.ipAddress == ip then { r with isActive := false, unblockedBy := actor }
    else r

/-- Embedding of blockedIPSchema.statics.cleanupExpiredBlocks: updateMany
deactivating active records whose expiresAt is at most now (a null expiresAt
does not match the $lte condition). -/
def cleanupExpiredBlocks (reg : BlockRegistry) (now : Nat) : BlockRegistry :=
  reg.map fun r =>
    if r.isActive &&
        (match r.expiresAt with
         | none => false
         | some e => decide (e ≤ now)) then
      { r with isActive := false }
    else r

/-- Unique-index invariant of the BlockedIP collection: at most one record
per address. -/
def uniqueAddr (reg : BlockRegistry) : Prop :=
  (reg.map (·.ipAddress)).Nodup

instance (reg : BlockRegistry) : Decidable (uniqueAddr reg) := by
  unfold uniqueAddr; infer_instance

/-- Number of records stored for one address. -/
def countAddr (reg : BlockRegistry) (ip : String) : Nat :=
  (reg.filter (·.ipAddress == ip)).length

/-- Total violation count stored for one address (under uniqueAddr this is
the single record's violationCount, or 0 when absent). -/
def violationSum (reg : BlockRegistry) (ip : String) : Nat :=
  ((reg.filter (·.ipAddress == ip)).map (·.violationCount)).sum

/-- Outcome of one middleware stage: next() or a terminal JSON rejection
with an HTTP status and a code string. -/
inductive GateOutcome where
  | next : GateOutcome
  | reject : Nat → String → GateOutcome
  deriving Repr, DecidableEq

/-- Attack signature.  The source fixes two families of regular expressions
(seven SQL-injection patterns, five XSS patterns) inside analyzeHttpRequest;
the embedding keeps each compiled pattern as a boolean test on the
serialized request and leaves the two families as parameters, since the
claims concern the family ordering and short-circuiting, not the regex
internals. -/
abbrev Pattern := String → Bool

/-- Embedding of one for-loop of analyzeHttpRequest: test the patterns in
order and stop at the first match. -/
def scanFirst : List Pattern → String → Bool
  | [], _ => false
  | p :: ps, s => if p s then true else scanFirst ps s

structure ScanOutcome where
  threat : Bool
  intrusionType : Option String
  severity : String
  deriving Repr

/-- Embedding of the pattern-matching core of analyzeHttpRequest: the SQL
family is tested first (first match gives sql_injection / High), the XSS
family only if no SQL pattern matched (first match gives xss_attack /
Medium); severity starts at the Medium default. -/
def signatureScan (sqlPatterns xssPatterns : List Pattern) (s : String) :
    ScanOutcome :=
  if scanFirst sqlPatterns s then
    { threat := true, intrusionType := some "sql_injection", severity := "High" }
  else if scanFirst xssPatterns s then
    { threat := true, intrusionType := some "xss_attack", severity := "Medium" }
  else
    { threat := false, intrusionType := none, severity := "Medium" }

/-- Snapshot of an Express request as the engine consumes it.  query, body
and headers stand for their JSON-serialized forms. -/
structure HttpRequest where
  method : String
  url : String
  path : String
  query : String
  body : String
  headers : String
  sourceIp : String
  userAgent : String
  deriving Repr, DecidableEq

/-- Embedding of the JSON.stringify serialization of url, query, body and
headers into the single string the patterns are tested against. -/
def requestString (r : HttpRequest) : String :=
  "\x7b\"url\":\"" ++ r.url ++ "\",\"query\":" ++ r.query ++ ",\"body\":"
    ++ r.body ++ ",\"headers\":" ++ r.headers ++ "\x7d"

/-- Embedding of one IntrusionEvent document (the fields the claims
mention). -/
structure IntrusionEventRec where
  sourceIp : String
  targetResource : String
  intrusionType : String
  severity : String
  status : String
  description : String
  responseAction : String
  repeatCount : Nat
  deriving Repr, DecidableEq

/-- Embedding of one UserActivity document (the fields the brute-force
counter reads). -/
structure ActivityRec where
  ipAddress : String
  activityType : String
  status : String
  createdAt : Nat
  deriving Repr, DecidableEq

/-- The durable stores the engine touches: IntrusionEvent collection,
BlockedIP collection, UserActivity collection and the security Log
collection (logs kept as action strings). -/
structure SysState where
  events : List IntrusionEventRec
  blocked : BlockRegistry
  activities : List ActivityRec
  logs : List String
  deriving Repr, DecidableEq

/-- IntrusionEvent written by analyzeHttpRequest on a content threat:
status Active, responseAction alert_sent, repeatCount at its schema default
1. -/
def contentEvent (req : HttpRequest) (scan : ScanOutcome) : IntrusionEventRec :=
  { sourceIp := req.sourceIp
    targetResource := req.url
    intrusionType := scan.intrusionType.getD ""
    severity := scan.severity
    status := "Active"
    description := "attempt detected"
    responseAction := "alert_sent"
    repeatCount := 1 }

/-- Result object of analyzeHttpRequest (threat false carries no type or
severity). -/
structure HttpAnalysis where
  threat : Bool
  intrusionType : Option String
  severity : Option String
  deriving Repr, DecidableEq

/-- Embedding of IntrusionDetectionService.analyzeHttpRequest: serialize the
request, run the two pattern families, and on a threat append an
IntrusionEvent and a security log entry; the BlockedIP store is never
touched. -/
def analyzeHttpRequest (sqlPatterns xssPatterns : List Pattern)
    (st : SysState) (req : HttpRequest) : SysState × HttpAnalysis :=
  let scan := signatureScan sqlPatterns xssPatterns (requestString req)
  if scan.threat then
    ({ st with
        events := st.events ++ [contentEvent req scan]
        logs := st.logs ++ ["Attempt"] },
     { threat := true, intrusionType := scan.intrusionType,
       severity := some scan.severity })
  else
    (st, { threat := false, intrusionType := none, severity := none })

/-- Paths the content-analysis middleware skips to avoid false positives. -/
def skipPaths : List String := ["/api/health", "/api/auth/login", "/api/auth/signup"]

/-- Embedding of the analyzeRequest middleware: skip exempt paths, run the
content analysis, reject with 403 THREAT_DETECTED on High or Critical
severity, and otherwise pass the request on (log-and-continue). -/
def analyzeRequest (sqlPatterns xssPatterns : List Pattern) (st : SysState)
    (req : HttpRequest) : SysState × GateOutcome :=
  if skipPaths.contains req.path then (st, .next)
  else
    let sa := analyzeHttpRequest sqlPatterns xssPatterns st req
    if sa.2.threat &&
        (sa.2.severity == some "High" || sa.2.severity == some "Critical") then
      (sa.1, .reject 403 "THREAT_DETECTED")
    else (sa.1, .next)

/-- One in-memory rate-tracking entry: request count and window-start
timestamp, window length 60000 ms, threshold 100 requests. -/
structure RateData where
  count : Nat
  firstRequest : Nat
  deriving Repr, DecidableEq

abbrev RateMap := List (String × RateData)

/-- Embedding of the cleanup loop of trackRequestPatterns: entries whose
window start lies more than the window length in the past are deleted. -/
def rateCleanup (m : RateMap) (now : Nat) : RateMap :=
  m.filter fun e => decide (now - e.2.firstRequest ≤ 60000)

/-- Embedding of the trackRequestPatterns middleware: clean up stale
entries, then either create a fresh entry with count 1 (passing the request
on) or increment the existing count and reject with 429
RATE_LIMIT_EXCEEDED when the incremented count exceeds 100.  The
severely-exceeded branch additionally fires an asynchronous
analyzeHttpRequest whose result is discarded; it does not change the rate
map or the decision, so it is not part of this function's value. -/
def trackRequestPatterns (m : RateMap) (ip : String) (now : Nat) :
    RateMap × GateOutcome :=
  let m₁ := rateCleanup m now
  match m₁.find? (fun e => e.1 == ip) with
  | none => (m₁ ++ [(ip, { count := 1, firstRequest := now })], .next)
  | some e =>
      let d : RateData := { count := e.2.count + 1, firstRequest := e.2.firstRequest }
      let m₂ := m₁.map fun e' => if e'.1 == ip then (e'.1, d) else e'
      if 100 < d.count then (m₂, .reject 429 "RATE_LIMIT_EXCEEDED")
      else (m₂, .next)

/-- Sequence of requests from one address through the rate stage, keeping
the per-request outcomes in order. -/
def runRequests (ip : String) : RateMap → List Nat → RateMap × List GateOutcome
  | m, [] => (m, [])
  | m, t :: ts =>
      let r := trackRequestPatterns m ip t
      let rest := runRequests ip r.1 ts
      (rest.1, r.2 :: rest.2)

/-- Outcome injected for a mongoose call: it either resolves or rejects
with a message; Except.error below is the rejected promise. -/
inductive Storage where
  | ok : Storage
  | fail : String → Storage
  deriving Repr, DecidableEq

/-- BlockedIP.isBlocked as a storage operation: rejects when the store is
unavailable. -/
def isBlockedStatic (s : Storage) (reg : BlockRegistry) (ip : String)
    (now : Nat) : Except String Bool :=
  match s with
  | .ok => .ok (isBlocked reg ip now)
  | .fail m => .error m

/-- BlockedIP.blockIP as a storage operation: the static has no catch, a
rejection propagates to its caller. -/
def blockIPStatic (s : Storage) (reg : BlockRegistry) (ip reason : String)
    (opts : BlockOptions) (now : Nat) : Except String BlockRegistry :=
  match s with
  | .ok => .ok (blockIP reg ip reason opts now)
  | .fail m => .error m

/-- BlockedIP.unblockIP as a storage operation: the static has no catch, a
rejection propagates to its caller. -/
def unblockIPStatic (s : Storage) (reg : BlockRegistry) (ip : String)
    (actor : Option String) : Except String BlockRegistry :=
  match s with
  | .ok => .ok (unblockIP reg ip actor)
  | .fail m => .error m

/-- Embedding of IntrusionDetectionService.isIPBlocked: await the store
lookup inside try/catch and default to not-blocked on any error. -/
def isIPBlocked (s : Storage) (reg : BlockRegistry) (ip : String)
    (now : Nat) : Bool :=
  match isBlockedStatic s reg ip now with
  | .ok b => b
  | .error _ => false

/-- Embedding of the checkBlockedIP middleware: the health endpoint is
exempt, a blocked source address is rejected with 403 IP_BLOCKED, anything
else (including a failed lookup) passes to the next stage. -/
def checkBlockedIP (s : Storage) (reg : BlockRegistry) (req : HttpRequest)
    (now : Nat) : GateOutcome :=
  if req.path == "/api/health" then .next
  else if isIPBlocked s reg req.sourceIp now then .reject 403 "IP_BLOCKED"
  else .next

/-- Embedding of countRecentFailedLogins: count of failed login activities
from the address whose creation time is at least now minus the 15-minute
brute-force window. -/
def countRecentFailedLogins (st : SysState) (ip : String) (now : Nat) : Nat :=
  (st.activities.filter fun a =>
     a.activityType == "login" && a.status == "failed" && a.ipAddress == ip &&
       decide (now - 15 * 60 * 1000 ≤ a.createdAt)).length

/-- IntrusionEvent written on the brute-force path: type brute_force,
severity High, responseAction ip_blocked, repeatCount equal to the counted
failures. -/
def bruteForceEvent (ip : String) (n : Nat) : IntrusionEventRec :=
  { sourceIp := ip
    targetResource := "/auth/login"
    intrusionType := "brute_force"
    severity := "High"
    status := "Active"
    description := "Brute force attack detected"
    responseAction := "ip_blocked"
    repeatCount := n }

/-- Result object of analyzeLoginAttempt.  The action field is one of none,
monitored, ip_blocked or error. -/
structure LoginAnalysis where
  threat : Bool
  action : String
  errorMsg : Option String := none
  deriving Repr, DecidableEq

/-- Embedding of IntrusionDetectionService.analyzeLoginAttempt: success
returns no threat; a failure counts the recent failed attempts, and at the
threshold (5) an IntrusionEvent is created, the address is blocked for 60
minutes with reason brute_force_attack and a security log is written.  The
whole body runs under try/catch, so a rejected storage write is caught and
resolved as a threat-false result carrying action error and the message;
the function itself never rejects. -/
def analyzeLoginAttempt (w : Storage) (st : SysState) (ip email : String)
    (success : Bool) (now : Nat) : Except String (SysState × LoginAnalysis) :=
  if success then .ok (st, { threat := false, action := "none" })
  else
    let n := countRecentFailedLogins st ip now
    if 5 ≤ n then
      let st₁ := { st with events := st.events ++ [bruteForceEvent ip n] }
      match blockIPStatic w st₁.blocked ip "brute_force_attack"
          { blockType := "automatic", blockedBy := none, duration := some 60,
            notes := "Blocked due to failed login attempts" } now with
      | .error m =>
          .ok (st₁, { threat := false, action := "error", errorMsg := some m })
      | .ok reg =>
          .ok ({ st₁ with
                  blocked := reg
                  logs := st₁.logs ++ ["Brute Force Attack Blocked"] },
               { threat := true, action := "ip_blocked" })
    else .ok (st, { threat := false, action := "monitored" })

/-- Embedding of the failed-login path of authController.login: reject
blocked addresses up front (403), otherwise record the failed UserActivity,
run the brute-force analysis (its own errors are caught by the controller),
and answer 401 invalid credentials.  The read path uses working storage;
the write outcome inside the analysis is the parameter. -/
def loginFailure (w : Storage) (st : SysState) (ip email : String)
    (now : Nat) : SysState × GateOutcome :=
  if isIPBlocked .ok st.blocked ip now then (st, .reject 403 "IP_BLOCKED")
  else
    let st₁ := { st with
      activities := st.activities ++ [⟨ip, "login", "failed", now⟩] }
    match analyzeLoginAttempt w st₁ ip email false now with
    | .ok r => (r.1, .reject 401 "INVALID_CREDENTIALS")
    | .error _ => (st₁, .reject 401 "INVALID_CREDENTIALS")

/-- Sequence of failed-login requests from one address. -/
def runFailedLogins (w : Storage) (ip email : String) :
    SysState → List Nat → SysState × List GateOutcome
  | st, [] => (st, [])
  | st, t :: ts =>
      let r := loginFailure w st ip email t
      let rest := runFailedLogins w ip email r.1 ts
      (rest.1, r.2 :: rest.2)

/-- State holding five failed login activities for one address, all at time
900000, as left by five prior failed-login requests before any analysis ran
at the threshold. -/
def fiveFailuresState : SysState :=
  { events := []
    blocked := []
    activities :=
      [⟨"3.3.3.3", "login", "failed", 900000⟩,
       ⟨"3.3.3.3", "login", "failed", 900000⟩,
       ⟨"3.3.3.3", "login", "failed", 900000⟩,
       ⟨"3.3.3.3", "login", "failed", 900000⟩,
       ⟨"3.3.3.3", "login", "failed", 900000⟩]
    logs := [] }

/-! ## Lemmas and claim theorems -/

lemma any_and_const (l : List BlockedIPRecord) (p : BlockedIPRecord → Bool)
    (c : Bool) : (l.any fun a => p a && c) = (l.any p && c) := by
  induction l with
  | nil => simp
  | cons a l ih => simp [List.any_cons, ih, Bool.and_or_distrib_right]

/-- Value of isBlocked right after a blockIP call: it is governed purely by
the fresh expiry written by the upsert. -/
lemma isBlocked_blockIP (reg : BlockRegistry) (ip reason : String)
    (opts : BlockOptions) (t t' : Nat) :
    isBlocked (blockIP reg ip reason opts t) ip t'
      = (match expiryOf opts.duration t with
         | none => true
         | some e => decide (t' < e)) := by
  unfold isBlocked blockIP
  by_cases h : reg.any (fun r => r.ipAddress == ip)
  · rw [if_pos h, List.any_map]
    have hpt : ∀ r : BlockedIPRecord,
        ((fun r : BlockedIPRecord =>
            r.ipAddress == ip && r.isActive &&
              (match r.expiresAt with
               | none => true
               | some e => decide (t' < e))) ∘
          (fun r : BlockedIPRecord =>
            if r.ipAddress == ip then
              { r with
                reason := reason
                blockType := opts.blockType
                blockedBy := opts.blockedBy
                expiresAt := expiryOf opts.duration t
                isActive := true
                notes := opts.notes
                violationCount := r.violationCount + 1 }
            else r)) r
        = ((r.ipAddress == ip) &&
            (match expiryOf opts.duration t with
             | none => true
             | some e => decide (t' < e))) := by
      intro r
      by_cases hr : r.ipAddress = ip
      · simp only [Function.comp_apply, hr, beq_self_eq_true, if_pos]
        cases expiryOf opts.duration t <;> simp
      · have hrb : (r.ipAddress == ip) = false := by simp [hr]
        simp [Function.comp_apply, hr, hrb]
    rw [funext hpt, any_and_const, h, Bool.true_and]
  · rw [if_neg h, List.any_append]
    have hreg : (reg.any fun r =>
        r.ipAddress == ip && r.isActive &&
          (match r.expiresAt with
           | none => true
           | some e => decide (t' < e))) = false := by
      rw [List.any_eq_false]
      intro r hr
      have : (r.ipAddress == ip) = false := by
        rcases List.any_eq_false.mp (Bool.eq_false_iff.mpr h) r hr with h'
        simpa using h'
      simp [this]
    rw [hreg]
    cases hexp : expiryOf opts.duration t <;> simp [hexp]

/-- After unblockIP, no record for the address is active, so isBlocked is
false at every time. -/
lemma isBlocked_unblockIP (reg : BlockRegistry) (ip : String)
    (actor : Option String) (t' : Nat) :
    isBlocked (unblockIP reg ip actor) ip t' = false := by
  unfold isBlocked unblockIP
  rw [List.any_map, List.any_eq_false]
  intro r _
  by_cases hr : r.ipAddress = ip
  · simp [Function.comp_apply, hr]
  · have hrb : (r.ipAddress == ip) = false := by simp [hr]
    simp [Function.comp_apply, hr, hrb]

lemma filter_addr_map (f : BlockedIPRecord → BlockedIPRecord)
    (hf : ∀ r, (f r).ipAddress = r.ipAddress) (reg : BlockRegistry)
    (ip : String) :
    (reg.map f).filter (fun r => r.ipAddress == ip)
      = (reg.filter (fun r => r.ipAddress == ip)).map f := by
  induction reg with
  | nil => rfl
  | cons a l ih =>
      simp only [List.map_cons, List.filter_cons, hf a]
      by_cases h : (a.ipAddress == ip) <;> simp [h, ih]

lemma map_addr_map (f : BlockedIPRecord → BlockedIPRecord)
    (hf : ∀ r, (f r).ipAddress = r.ipAddress) (reg : BlockRegistry) :
    (reg.map f).map (·.ipAddress) = reg.map (·.ipAddress) := by
  rw [List.map_map]
  exact List.map_congr_left fun r _ => hf r

lemma countAddr_eq_zero_of_not_mem (reg : BlockRegistry) (ip : String)
    (h : ip ∉ reg.map (·.ipAddress)) : countAddr reg ip = 0 := by
  induction reg with
  | nil => rfl
  | cons a l ih =>
      simp only [List.map_cons, List.mem_cons, not_or] at h
      have hne : ¬a.ipAddress = ip := fun he => h.1 he.symm
      have ha : (a.ipAddress == ip) = false := by simp [hne]
      simp only [countAddr, List.filter_cons, ha]
      exact ih h.2

lemma countAddr_eq_one (reg : BlockRegistry) (ip : String)
    (hinv : uniqueAddr reg) (h : reg.any (·.ipAddress == ip) = true) :
    countAddr reg ip = 1 := by
  induction reg with
  | nil => simp at h
  | cons a l ih =>
      rw [uniqueAddr, List.map_cons, List.nodup_cons] at hinv
      by_cases ha : a.ipAddress = ip
      · have hab : (a.ipAddress == ip) = true := by simp [ha]
        simp only [countAddr, List.filter_cons, hab, if_pos]
        have : countAddr l ip = 0 :=
          countAddr_eq_zero_of_not_mem l ip (ha ▸ hinv.1)
        simp only [countAddr] at this
        simp [this]
      · have hab : (a.ipAddress == ip) = false := by simp [ha]
        simp only [List.any_cons, hab, Bool.false_or] at h
        simp only [countAddr, List.filter_cons, hab]
        exact ih hinv.2 h

/-- A blockIP call always leaves a record for the blocked address. -/
lemma any_addr_blockIP (reg : BlockRegistry) (ip reason : String)
    (opts : BlockOptions) (t : Nat) :
    (blockIP reg ip reason opts t).any (·.ipAddress == ip) = true := by
  unfold blockIP
  by_cases h : reg.any (fun r => r.ipAddress == ip)
  · rw [if_pos h, List.any_map]
    rcases List.any_eq_true.mp h with ⟨r, hr, hmatch⟩
    refine List.any_eq_true.mpr ⟨r, hr, ?_⟩
    simp only [Function.comp_apply]
    have : r.ipAddress = ip := by simpa using hmatch
    simp [this]
  · rw [if_neg h, List.any_append]
    simp

lemma map_addr_blockIP (reg : BlockRegistry) (ip reason : String)
    (opts : BlockOptions) (t : Nat) :
    (blockIP reg ip reason opts t).map (·.ipAddress)
      = if reg.any (fun r => r.ipAddress == ip) then reg.map (·.ipAddress)
        else reg.map (·.ipAddress) ++ [ip] := by
  unfold blockIP
  by_cases h : reg.any (fun r => r.ipAddress == ip)
  · rw [if_pos h, if_pos h]
    exact map_addr_map _ (fun r => by by_cases hr : r.ipAddress = ip <;> simp [hr]) reg
  · rw [if_neg h, if_neg h]
    simp

lemma uniqueAddr_blockIP (reg : BlockRegistry) (ip reason : String)
    (opts : BlockOptions) (t : Nat) (hinv : uniqueAddr reg) :
    uniqueAddr (blockIP reg ip reason opts t) := by
  unfold uniqueAddr
  rw [map_addr_blockIP]
  by_cases h : reg.any (fun r => r.ipAddress == ip)
  · rw [if_pos h]; exact hinv
  · rw [if_neg h]
    rw [List.nodup_append]
    refine ⟨hinv, List.nodup_singleton ip, ?_⟩
    intro a ha hmem
    have ha' : a = ip := by simpa using hmem
    rcases List.mem_map.mp ha with ⟨r, hr, hra⟩
    have : (r.ipAddress == ip) = false :=
      by simpa using List.any_eq_false.mp (Bool.eq_false_iff.mpr h) r hr
    rw [ha'] at hra
    simp [hra] at this

lemma countAddr_blockIP (reg : BlockRegistry) (ip reason : String)
    (opts : BlockOptions) (t : Nat) :
    countAddr (blockIP reg ip reason opts t) ip
      = if reg.any (fun r => r.ipAddress == ip) then countAddr reg ip
        else countAddr reg ip + 1 := by
  unfold blockIP countAddr
  by_cases h : reg.any (fun r => r.ipAddress == ip)
  · rw [if_pos h, if_pos h,
      filter_addr_map _ (fun r => by by_cases hr : r.ipAddress = ip <;> simp [hr])]
    simp
  · rw [if_neg h, if_neg h]
    simp [List.filter_append]

lemma violationSum_blockIP (reg : BlockRegistry) (ip reason : String)
    (opts : BlockOptions) (t : Nat) (hinv : uniqueAddr reg) :
    violationSum (blockIP reg ip reason opts t) ip = violationSum reg ip + 1 := by
  unfold blockIP
  by_cases h : reg.any (fun r => r.ipAddress == ip)
  · rw [if_pos h]
    unfold violationSum
    rw [filter_addr_map _ (fun r => by by_cases hr : r.ipAddress = ip <;> simp [hr])]
    have hone : countAddr reg ip = 1 := countAddr_eq_one reg ip hinv h
    unfold countAddr at hone
    rcases List.length_eq_one.mp hone with ⟨r, hr⟩
    have hrip : r.ipAddress = ip := by
      have : r ∈ reg.filter (·.ipAddress == ip) := by rw [hr]; simp
      simpa using (List.mem_filter.mp this).2
    rw [hr]
    simp [hrip]
  · rw [if_neg h]
    unfold violationSum
    simp [List.filter_append]

lemma uniqueAddr_unblockIP (reg : BlockRegistry) (ip : String)
    (actor : Option String) (hinv : uniqueAddr reg) :
    uniqueAddr (unblockIP reg ip actor) := by
  unfold uniqueAddr unblockIP
  rw [map_addr_map _ (fun r => by by_cases hr : r.ipAddress = ip <;> simp [hr])]
  exact hinv

lemma uniqueAddr_cleanupExpiredBlocks (reg : BlockRegistry) (now : Nat)
    (hinv : uniqueAddr reg) : uniqueAddr (cleanupExpiredBlocks reg now) := by
  unfold uniqueAddr cleanupExpiredBlocks
  rw [map_addr_map _ (fun r => by
    by_cases hr : (r.isActive &&
        (match r.expiresAt with
         | none => false
         | some e => decide (e ≤ now))) = true <;> simp [hr])]
  exact hinv

/-- C1.  After blockIP(A, reason, duration D minutes) issued at time t, with
D positive, isBlocked(A) queried at any time t₁ is true exactly when t₁ is
strictly before t + D minutes: true strictly before the boundary, false at
and after it (currently blocked means active and expiry strictly greater
than now). -/
theorem blockIP_boundary_exact_expiry (reg : BlockRegistry)
    (ip reason : String) (opts : BlockOptions) (t D : Nat)
    (hdur : opts.duration = some D) (hD : 0 < D) (t₁ : Nat) :
    isBlocked (blockIP reg ip reason opts t) ip t₁
      = decide (t₁ < t + D * 60 * 1000) := by
  rw [isBlocked_blockIP]
  rw [hdur]
  match D, hD with
  | (d + 1), _ => rfl

/-- Witness for C1 at concrete inputs: a 1-minute block issued at time 0 on
an empty registry, queried exactly at the boundary. -/
theorem blockIP_boundary_exact_expiry_witness :
    isBlocked
      (blockIP [] "10.0.0.9" "manual_block"
        { blockType := "manual", blockedBy := some "admin", duration := some 1,
          notes := "" } 0)
      "10.0.0.9" 60000 = decide (60000 < 0 + 1 * 60 * 1000) :=
  blockIP_boundary_exact_expiry [] "10.0.0.9" "manual_block"
    { blockType := "manual", blockedBy := some "admin", duration := some 1,
      notes := "" } 0 1 rfl (by decide) 60000

/-- C7.  blockIP upserts on the unique address key: starting from a registry
satisfying the at-most-one-record-per-address invariant, two successive
blockIP calls for the same address leave exactly one record for it, with the
stored violation count incremented exactly twice (a fresh address starts at
0 stored, so it ends at 2); the invariant is preserved by blockIP and also
by unblockIP and cleanupExpiredBlocks. -/
theorem blockIP_upsert_unique (reg : BlockRegistry) (ip r₁ r₂ : String)
    (o₁ o₂ : BlockOptions) (t₁ t₂ now : Nat) (actor : Option String)
    (hinv : uniqueAddr reg) :
    uniqueAddr (blockIP (blockIP reg ip r₁ o₁ t₁) ip r₂ o₂ t₂)
    ∧ countAddr (blockIP (blockIP reg ip r₁ o₁ t₁) ip r₂ o₂ t₂) ip = 1
    ∧ violationSum (blockIP (blockIP reg ip r₁ o₁ t₁) ip r₂ o₂ t₂) ip
        = violationSum reg ip + 2
    ∧ uniqueAddr (unblockIP reg ip actor)
    ∧ uniqueAddr (cleanupExpiredBlocks reg now) := by
  have h₁ : uniqueAddr (blockIP reg ip r₁ o₁ t₁) :=
    uniqueAddr_blockIP reg ip r₁ o₁ t₁ hinv
  refine ⟨uniqueAddr_blockIP _ ip r₂ o₂ t₂ h₁, ?_, ?_,
    uniqueAddr_unblockIP reg ip actor hinv,
    uniqueAddr_cleanupExpiredBlocks reg now hinv⟩
  · rw [countAddr_blockIP, if_pos (any_addr_blockIP reg ip r₁ o₁ t₁)]
    exact countAddr_eq_one _ ip h₁ (any_addr_blockIP reg ip r₁ o₁ t₁)
  · rw [violationSum_blockIP _ ip r₂ o₂ t₂ h₁,
      violationSum_blockIP reg ip r₁ o₁ t₁ hinv]

/-- Witness for C7 at concrete inputs: double automatic block of a fresh
address on the empty registry. -/
theorem blockIP_upsert_unique_witness :
    uniqueAddr (blockIP (blockIP [] "1.2.3.4" "brute_force_attack" {} 5)
       "1.2.3.4" "repeated_violations" {} 9)
    ∧ countAddr (blockIP (blockIP [] "1.2.3.4" "brute_force_attack" {} 5)
        "1.2.3.4" "repeated_violations" {} 9) "1.2.3.4" = 1
    ∧ violationSum (blockIP (blockIP [] "1.2.3.4" "brute_force_attack" {} 5)
        "1.2.3.4" "repeated_violations" {} 9) "1.2.3.4"
        = violationSum [] "1.2.3.4" + 2
    ∧ uniqueAddr (unblockIP [] "1.2.3.4" none)
    ∧ uniqueAddr (cleanupExpiredBlocks [] 77) :=
  blockIP_upsert_unique [] "1.2.3.4" "brute_force_attack"
    "repeated_violations" {} {} 5 9 77 none (by decide)

/-- C10.  blockIP with duration 0 stores a null expiry exactly as duration
null does, so a zero-minute block is permanent: isBlocked is true at every
query time, until an explicit unblockIP makes it false at every query
time. -/
theorem blockIP_zero_duration_permanent (reg : BlockRegistry)
    (ip reason : String) (bt : String) (actor₁ : Option String)
    (notes : String) (t t₁ : Nat) (actor₂ : Option String) :
    blockIP reg ip reason
        { blockType := bt, blockedBy := actor₁, duration := some 0,
          notes := notes } t
      = blockIP reg ip reason
          { blockType := bt, blockedBy := actor₁, duration := none,
            notes := notes } t
    ∧ isBlocked
        (blockIP reg ip reason
          { blockType := bt, blockedBy := actor₁, duration := some 0,
            notes := notes } t) ip t₁ = true
    ∧ isBlocked
        (unblockIP
          (blockIP reg ip reason
            { blockType := bt, blockedBy := actor₁, duration := some 0,
              notes := notes } t) ip actor₂) ip t₁ = false := by
  refine ⟨?_, ?_, isBlocked_unblockIP _ ip actor₂ t₁⟩
  · unfold blockIP expiryOf
    rfl
  · rw [isBlocked_blockIP]
    rfl

/-- C4.  The content scan tests the SQL-injection family first: any SQL
match classifies the request sql_injection / High; the XSS family is
consulted only when no SQL pattern matched, a match giving xss_attack /
Medium; a request matching both families is always sql_injection / High;
and a matching pattern short-circuits its family (patterns after it are
never consulted). -/
theorem analyzeHttpRequest_sql_before_xss (sqlPatterns xssPatterns : List Pattern)
    (st : SysState) (req : HttpRequest) :
    (scanFirst sqlPatterns (requestString req) = true →
       (analyzeHttpRequest sqlPatterns xssPatterns st req).2
         = { threat := true, intrusionType := some "sql_injection",
             severity := some "High" })
    ∧ (scanFirst sqlPatterns (requestString req) = false →
       scanFirst xssPatterns (requestString req) = true →
       (analyzeHttpRequest sqlPatterns xssPatterns st req).2
         = { threat := true, intrusionType := some "xss_attack",
             severity := some "Medium" })
    ∧ (scanFirst sqlPatterns (requestString req) = true →
       scanFirst xssPatterns (requestString req) = true →
       (analyzeHttpRequest sqlPatterns xssPatterns st req).2
         = { threat := true, intrusionType := some "sql_injection",
             severity := some "High" })
    ∧ (∀ (p : Pattern) (ps ps' : List Pattern) (s : String),
        p s = true → scanFirst (p :: ps) s = scanFirst (p :: ps') s) := by
  refine ⟨?_, ?_, ?_, ?_⟩
  · intro hsql
    simp [analyzeHttpRequest, signatureScan, hsql]
  · intro hsql hxss
    simp [analyzeHttpRequest, signatureScan, hsql, hxss]
  · intro hsql _
    simp [analyzeHttpRequest, signatureScan, hsql]
  · intro p ps ps' s hp
    simp [scanFirst, hp]

/-- Witness for C4 at concrete inputs: a one-pattern SQL family that always
matches classifies the request sql_injection / High. -/
theorem analyzeHttpRequest_sql_before_xss_witness :
    (analyzeHttpRequest [fun _ => true] [fun _ => true]
        { events := [], blocked := [], activities := [], logs := [] }
        { method := "GET", url := "/u", path := "/u", query := "null",
          body := "null", headers := "null", sourceIp := "8.8.8.8",
          userAgent := "ua" }).2
      = { threat := true, intrusionType := some "sql_injection",
          severity := some "High" } :=
  (analyzeHttpRequest_sql_before_xss [fun _ => true] [fun _ => true]
    { events := [], blocked := [], activities := [], logs := [] }
    { method := "GET", url := "/u", path := "/u", query := "null",
      body := "null", headers := "null", sourceIp := "8.8.8.8",
      userAgent := "ua" }).1 rfl

/-- C6.  On a non-exempt path, a content threat of severity High or
Critical is rejected with 403 THREAT_DETECTED while a threat of severity
Medium or Low lets the request proceed; in both cases the IntrusionEvent
has been recorded by the analysis. -/
theorem analyzeRequest_severity_policy (sqlPatterns xssPatterns : List Pattern)
    (st : SysState) (req : HttpRequest)
    (h : skipPaths.contains req.path = false) :
    ((analyzeHttpRequest sqlPatterns xssPatterns st req).2.threat = true →
      ((analyzeHttpRequest sqlPatterns xssPatterns st req).2.severity = some "High"
        ∨ (analyzeHttpRequest sqlPatterns xssPatterns st req).2.severity = some "Critical") →
      analyzeRequest sqlPatterns xssPatterns st req
        = ((analyzeHttpRequest sqlPatterns xssPatterns st req).1,
           .reject 403 "THREAT_DETECTED"))
    ∧ ((analyzeHttpRequest sqlPatterns xssPatterns st req).2.threat = true →
      ((analyzeHttpRequest sqlPatterns xssPatterns st req).2.severity = some "Medium"
        ∨ (analyzeHttpRequest sqlPatterns xssPatterns st req).2.severity = some "Low") →
      analyzeRequest sqlPatterns xssPatterns st req
        = ((analyzeHttpRequest sqlPatterns xssPatterns st req).1, .next))
    ∧ ((analyzeHttpRequest sqlPatterns xssPatterns st req).2.threat = true →
      (analyzeHttpRequest sqlPatterns xssPatterns st req).1.events
        = st.events
            ++ [contentEvent req
                 (signatureScan sqlPatterns xssPatterns (requestString req))]) := by
  have h' : req.path ∉ skipPaths := by simpa using h
  refine ⟨?_, ?_, ?_⟩
  · intro hthreat hsev
    have hc : ((analyzeHttpRequest sqlPatterns xssPatterns st req).2.threat &&
        ((analyzeHttpRequest sqlPatterns xssPatterns st req).2.severity == some "High"
          || (analyzeHttpRequest sqlPatterns xssPatterns st req).2.severity == some "Critical")) = true := by
      rcases hsev with hs | hs <;> rw [hthreat, hs] <;> decide
    simp [analyzeRequest, h', hc]
  · intro hthreat hsev
    have hc : ((analyzeHttpRequest sqlPatterns xssPatterns st req).2.threat &&
        ((analyzeHttpRequest sqlPatterns xssPatterns st req).2.severity == some "High"
          || (analyzeHttpRequest sqlPatterns xssPatterns st req).2.severity == some "Critical")) = false := by
      rcases hsev with hs | hs <;> rw [hthreat, hs] <;> decide
    simp [analyzeRequest, h', hc]
  · intro hthreat
    unfold analyzeHttpRequest at hthreat ⊢
    by_cases hscan :
        (signatureScan sqlPatterns xssPatterns (requestString req)).threat
      <;> simp [hscan] at hthreat ⊢

/-- Witness for C6 at concrete inputs: a matching SQL pattern on a
non-exempt path is rejected with 403 THREAT_DETECTED. -/
theorem analyzeRequest_severity_policy_witness :
    analyzeRequest [fun _ => true] []
        { events := [], blocked := [], activities := [], logs := [] }
        { method := "GET", url := "/x", path := "/x", query := "null",
          body := "null", headers := "null", sourceIp := "8.8.4.4",
          userAgent := "ua" }
      = ((analyzeHttpRequest [fun _ => true] []
            { events := [], blocked := [], activities := [], logs := [] }
            { method := "GET", url := "/x", path := "/x", query := "null",
              body := "null", headers := "null", sourceIp := "8.8.4.4",
              userAgent := "ua" }).1, .reject 403 "THREAT_DETECTED") :=
  (analyzeRequest_severity_policy [fun _ => true] []
    { events := [], blocked := [], activities := [], logs := [] }
    { method := "GET", url := "/x", path := "/x", query := "null",
      body := "null", headers := "null", sourceIp := "8.8.4.4",
      userAgent := "ua" }
    (by decide)).1 rfl (Or.inl rfl)

/-- C9.  analyzeHttpRequest leaves the BlockedIP store (and the activity
log) unchanged whatever it detects: a single High-severity content match
records an alert_sent IntrusionEvent only, so a later identical request is
evaluated independently. -/
theorem analyzeHttpRequest_never_blocks (sqlPatterns xssPatterns : List Pattern)
    (st : SysState) (req : HttpRequest) :
    (analyzeHttpRequest sqlPatterns xssPatterns st req).1.blocked = st.blocked
    ∧ (analyzeHttpRequest sqlPatterns xssPatterns st req).1.activities
        = st.activities
    ∧ (analyzeHttpRequest sqlPatterns xssPatterns st req).1.events
        = st.events
            ++ (if (signatureScan sqlPatterns xssPatterns (requestString req)).threat
                then [contentEvent req
                       (signatureScan sqlPatterns xssPatterns (requestString req))]
                else [])
    ∧ (contentEvent req
         (signatureScan sqlPatterns xssPatterns (requestString req))).responseAction
        = "alert_sent" := by
  unfold analyzeHttpRequest
  by_cases hscan :
      (signatureScan sqlPatterns xssPatterns (requestString req)).threat
    <;> simp [hscan, contentEvent]

lemma trackRequestPatterns_empty (ip : String) (t : Nat) :
    trackRequestPatterns [] ip t = ([(ip, ⟨1, t⟩)], .next) := rfl

lemma trackRequestPatterns_existing (ip : String) (c f t : Nat)
    (h : t - f ≤ 60000) :
    trackRequestPatterns [(ip, ⟨c, f⟩)] ip t
      = ([(ip, ⟨c + 1, f⟩)],
         if 100 < c + 1 then GateOutcome.reject 429 "RATE_LIMIT_EXCEEDED"
         else GateOutcome.next) := by
  have hle : t ≤ 60000 + f := by omega
  by_cases h100 : 100 < c + 1 <;>
    simp [trackRequestPatterns, rateCleanup, List.filter_cons, hle, h100]

lemma trackRequestPatterns_stale (ip : String) (c f t : Nat)
    (h : 60000 < t - f) :
    trackRequestPatterns [(ip, ⟨c, f⟩)] ip t = ([(ip, ⟨1, t⟩)], .next) := by
  have hle : ¬t ≤ 60000 + f := by omega
  simp [trackRequestPatterns, rateCleanup, List.filter_cons, hle]

lemma runRequests_append (ip : String) (m : RateMap) (l₁ l₂ : List Nat) :
    runRequests ip m (l₁ ++ l₂)
      = ((runRequests ip (runRequests ip m l₁).1 l₂).1,
         (runRequests ip m l₁).2 ++ (runRequests ip (runRequests ip m l₁).1 l₂).2) := by
  induction l₁ generalizing m with
  | nil => simp [runRequests]
  | cons t l₁ ih => simp [runRequests, ih]

/-- Behaviour of a burst from a single address whose requests all fall in
the window of the existing entry: the counter goes up by one per request
and the k-th request of the burst is rejected exactly when the counter
passed 100. -/
lemma runRequests_window (ip : String) (c f : Nat) (ts : List Nat)
    (h : ∀ t ∈ ts, t - f ≤ 60000) :
    runRequests ip [(ip, ⟨c, f⟩)] ts
      = ([(ip, ⟨c + ts.length, f⟩)],
         (List.range ts.length).map fun i =>
           if 100 < c + i + 1 then GateOutcome.reject 429 "RATE_LIMIT_EXCEEDED"
           else GateOutcome.next) := by
  induction ts generalizing c with
  | nil => simp [runRequests]
  | cons t ts ih =>
      have ht : t - f ≤ 60000 := h t (List.mem_cons_self _ _)
      have hts : ∀ u ∈ ts, u - f ≤ 60000 :=
        fun u hu => h u (List.mem_cons_of_mem _ hu)
      rw [runRequests, trackRequestPatterns_existing ip c f t ht]
      rw [ih (c + 1) hts]
      refine Prod.ext ?_ ?_
      · simp [Nat.add_assoc, Nat.add_comm, Nat.add_left_comm]
      · show _ :: _ = (List.range (ts.length + 1)).map _
        rw [List.range_succ_eq_map, List.map_cons, List.map_map]
        refine congrArg₂ _ ?_ ?_
        · exact if_congr (by omega) rfl rfl
        · exact List.map_congr_left fun i _ => by
            simp only [Function.comp_apply]
            exact if_congr (by omega) rfl rfl

/-- C5.  From a fresh address, a burst whose requests all fall within the
60 s window of the first one increments the counter by one per request and
rejects with 429 RATE_LIMIT_EXCEEDED exactly the requests beyond the
100th (so 101 in-window requests see one rejection, at the 101st, and any
further in-window request is rejected too); a request arriving after the
window has elapsed finds the entry cleaned up, restarts the count at 1 and
passes; hence 100 in-window requests, a pause longer than the window, and
100 more in-window requests never trip the limiter. -/
theorem trackRequestPatterns_rate_limit (ip : String)
    (t₁ : Nat) (ts : List Nat) (hw : ∀ u ∈ ts, u - t₁ ≤ 60000)
    (c f t : Nat) (hstale : 60000 < t - f)
    (s₁ : Nat) (us : List Nat) (hus : ∀ u ∈ us, u - s₁ ≤ 60000)
    (hlus : us.length ≤ 99)
    (s₂ : Nat) (vs : List Nat) (hvs : ∀ v ∈ vs, v - s₂ ≤ 60000)
    (hlvs : vs.length ≤ 99) (hs₂ : 60000 < s₂ - s₁) :
    (runRequests ip [] (t₁ :: ts)).1 = [(ip, ⟨1 + ts.length, t₁⟩)]
    ∧ (runRequests ip [] (t₁ :: ts)).2
        = (List.range (ts.length + 1)).map (fun k =>
            if 100 < k + 1 then GateOutcome.reject 429 "RATE_LIMIT_EXCEEDED"
            else GateOutcome.next)
    ∧ trackRequestPatterns [(ip, ⟨c, f⟩)] ip t = ([(ip, ⟨1, t⟩)], .next)
    ∧ ∀ o ∈ (runRequests ip [] ((s₁ :: us) ++ s₂ :: vs)).2,
        o = GateOutcome.next := by
  have hrun : ∀ (w₁ : Nat) (ws : List Nat), (∀ u ∈ ws, u - w₁ ≤ 60000) →
      runRequests ip [] (w₁ :: ws)
        = ([(ip, ⟨1 + ws.length, w₁⟩)],
           GateOutcome.next :: (List.range ws.length).map fun i =>
             if 100 < 1 + i + 1 then GateOutcome.reject 429 "RATE_LIMIT_EXCEEDED"
             else GateOutcome.next) := by
    intro w₁ ws hws
    rw [runRequests, trackRequestPatterns_empty, runRequests_window ip 1 w₁ ws hws]
  refine ⟨?_, ?_, trackRequestPatterns_stale ip c f t hstale, ?_⟩
  · rw [hrun t₁ ts hw]
  · rw [hrun t₁ ts hw]
    show _ :: _ = (List.range (ts.length + 1)).map _
    rw [List.range_succ_eq_map, List.map_cons, List.map_map]
    refine congrArg₂ _ (by simp) ?_
    exact List.map_congr_left fun i _ => by
      simp only [Function.comp_apply]
      exact if_congr (by omega) rfl rfl
  · intro o ho
    rw [runRequests_append, hrun s₁ us hus] at ho
    have h₂ : runRequests ip [(ip, ⟨1 + us.length, s₁⟩)] (s₂ :: vs)
        = ([(ip, ⟨1 + vs.length, s₂⟩)],
           GateOutcome.next :: (List.range vs.length).map fun i =>
             if 100 < 1 + i + 1 then GateOutcome.reject 429 "RATE_LIMIT_EXCEEDED"
             else GateOutcome.next) := by
      rw [runRequests, trackRequestPatterns_stale ip (1 + us.length) s₁ s₂ hs₂,
        runRequests_window ip 1 s₂ vs hvs]
    rw [h₂] at ho
    simp only [List.mem_append, List.mem_cons, List.mem_map,
      List.mem_range] at ho
    rcases ho with (ho | ⟨i, hi, ho⟩) | ho | ⟨i, hi, ho⟩
    · exact ho
    · rw [← ho, if_neg (by omega)]
    · exact ho
    · rw [← ho, if_neg (by omega)]

/-- Witness for C5 at concrete inputs: the reset conjunct applied to an
entry with count 5 receiving a request 70 seconds after its window
start. -/
theorem trackRequestPatterns_rate_limit_witness :
    trackRequestPatterns [("9.9.9.9", ⟨5, 0⟩)] "9.9.9.9" 70000
      = ([("9.9.9.9", ⟨1, 70000⟩)], .next) :=
  (trackRequestPatterns_rate_limit "9.9.9.9" 0 (List.replicate 100 0)
    (by simp) 5 0 70000 (by decide) 0 (List.replicate 99 0) (by simp)
    (by simp) 61000 (List.replicate 99 61000) (by simp) (by simp)
    (by decide)).2.2.1

/-- C3.  When the store lookup inside the blocked-IP check raises an error,
isIPBlocked returns false and the checkBlockedIP middleware passes the
request to the next pipeline stage; a read-path storage error never
produces a rejected request. -/
theorem isIPBlocked_fail_open (reg : BlockRegistry) (ip : String) (now : Nat)
    (msg : String) (req : HttpRequest) :
    isIPBlocked (.fail msg) reg ip now = false
    ∧ checkBlockedIP (.fail msg) reg req now = .next := by
  refine ⟨rfl, ?_⟩
  unfold checkBlockedIP
  by_cases hp : req.path == "/api/health" <;>
    simp [hp, isIPBlocked, isBlockedStatic]

/-- Failed-login count over a store of uniform failed-login activities that
all fall inside the window. -/
lemma countRecentFailedLogins_uniform (evs : List IntrusionEventRec)
    (reg : BlockRegistry) (logs : List String) (ip : String)
    (times : List Nat) (now : Nat)
    (h : ∀ u ∈ times, now - 15 * 60 * 1000 ≤ u) :
    countRecentFailedLogins
      ⟨evs, reg, times.map (fun u => ⟨ip, "login", "failed", u⟩), logs⟩ ip now
      = times.length := by
  induction times with
  | nil => rfl
  | cons u ts ih =>
      have hu : now - 15 * 60 * 1000 ≤ u := h u (List.mem_cons_self _ _)
      have hts : ∀ v ∈ ts, now - 15 * 60 * 1000 ≤ v :=
        fun v hv => h v (List.mem_cons_of_mem _ hv)
      have ih' := ih hts
      unfold countRecentFailedLogins at ih' ⊢
      rw [List.map_cons, List.filter_cons, if_pos (by simp [hu]),
        List.length_cons, ih', List.length_cons]

lemma loginFailure_monitored (st : SysState) (ip email : String) (t n : Nat)
    (hnb : isBlocked st.blocked ip t = false)
    (hn : countRecentFailedLogins
        { st with activities := st.activities ++ [⟨ip, "login", "failed", t⟩] }
        ip t = n)
    (h5 : n < 5) :
    loginFailure .ok st ip email t
      = ({ st with
            activities := st.activities ++ [⟨ip, "login", "failed", t⟩] },
         .reject 401 "INVALID_CREDENTIALS") := by
  unfold loginFailure
  rw [show isIPBlocked .ok st.blocked ip t = false from hnb]
  simp only [Bool.false_eq_true, if_false]
  unfold analyzeLoginAttempt
  rw [hn, if_neg (by omega : ¬5 ≤ n)]
  simp

lemma loginFailure_threshold (st : SysState) (ip email : String) (t n : Nat)
    (hnb : isBlocked st.blocked ip t = false)
    (hn : countRecentFailedLogins
        { st with activities := st.activities ++ [⟨ip, "login", "failed", t⟩] }
        ip t = n)
    (h5 : 5 ≤ n) :
    loginFailure .ok st ip email t
      = ({ st with
            activities := st.activities ++ [⟨ip, "login", "failed", t⟩]
            events := st.events ++ [bruteForceEvent ip n]
            blocked := blockIP st.blocked ip "brute_force_attack"
              { blockType := "automatic", blockedBy := none,
                duration := some 60,
                notes := "Blocked due to failed login attempts" } t
            logs := st.logs ++ ["Brute Force Attack Blocked"] },
         .reject 401 "INVALID_CREDENTIALS") := by
  unfold loginFailure
  rw [show isIPBlocked .ok st.blocked ip t = false from hnb]
  simp only [Bool.false_eq_true, if_false]
  unfold analyzeLoginAttempt
  rw [hn, if_pos h5]
  simp [blockIPStatic]

lemma loginFailure_blocked (st : SysState) (ip email : String) (t : Nat)
    (w : Storage) (hb : isBlocked st.blocked ip t = true) :
    loginFailure w st ip email t = (st, .reject 403 "IP_BLOCKED") := by
  unfold loginFailure
  rw [show isIPBlocked .ok st.blocked ip t = true from hb]
  simp

/-- C2 counterexample.  Six failed-login requests from one fresh address at
times 0..5: the sixth request, arriving while the block exists, leaves the
stores entirely unchanged — the single brute_force event keeps repeatCount
5.  Nothing increments repeatCount, contradicting the claim that the sixth
failure increments the existing event's repeatCount. -/
theorem sixth_failure_no_repeat_increment_cex :
    (runFailedLogins .ok "5.5.5.5" "u@e" ⟨[], [], [], []⟩ [0, 1, 2, 3, 4, 5]).1
      = (runFailedLogins .ok "5.5.5.5" "u@e" ⟨[], [], [], []⟩ [0, 1, 2, 3, 4]).1
    ∧ ((runFailedLogins .ok "5.5.5.5" "u@e" ⟨[], [], [], []⟩
          [0, 1, 2, 3, 4, 5]).1.events.map (fun e => e.repeatCount)) = [5]
    ∧ ¬((runFailedLogins .ok "5.5.5.5" "u@e" ⟨[], [], [], []⟩
          [0, 1, 2, 3, 4, 5]).1.events.map (fun e => e.repeatCount)) = [6] := by
  decide

/-- C2 (amended).  Five failed logins for one address within the 15-minute
window trigger exactly one brute_force IntrusionEvent of severity High
(repeatCount 5) and exactly one BlockedIP record with reason
brute_force_attack and a 60-minute expiry; a sixth failure attempt while
the block exists is rejected by the blocked-IP check before any analysis,
so no second IntrusionEvent is created and the existing event is left
unchanged — its repeatCount stays 5, nothing increments it. -/
theorem brute_force_single_event (ip email : String) (t₁ t₂ t₃ t₄ t₅ t₆ : Nat)
    (h12 : t₁ ≤ t₂) (h23 : t₂ ≤ t₃) (h34 : t₃ ≤ t₄) (h45 : t₄ ≤ t₅)
    (hwin : t₅ ≤ t₁ + 15 * 60 * 1000)
    (h56 : t₅ ≤ t₆) (h66 : t₆ < t₅ + 60 * 60 * 1000) :
    runFailedLogins .ok ip email ⟨[], [], [], []⟩ [t₁, t₂, t₃, t₄, t₅, t₆]
      = (⟨[bruteForceEvent ip 5],
          [{ ipAddress := ip, reason := "brute_force_attack",
             blockType := "automatic", blockedBy := none,
             expiresAt := some (t₅ + 60 * 60 * 1000), isActive := true,
             violationCount := 1,
             notes := "Blocked due to failed login attempts",
             unblockedBy := none }],
          [⟨ip, "login", "failed", t₁⟩, ⟨ip, "login", "failed", t₂⟩,
           ⟨ip, "login", "failed", t₃⟩, ⟨ip, "login", "failed", t₄⟩,
           ⟨ip, "login", "failed", t₅⟩],
          ["Brute Force Attack Blocked"]⟩,
         [.reject 401 "INVALID_CREDENTIALS", .reject 401 "INVALID_CREDENTIALS",
          .reject 401 "INVALID_CREDENTIALS", .reject 401 "INVALID_CREDENTIALS",
          .reject 401 "INVALID_CREDENTIALS", .reject 403 "IP_BLOCKED"]) := by
  have e₁ : loginFailure .ok ⟨[], [], [], []⟩ ip email t₁
      = (⟨[], [], [⟨ip, "login", "failed", t₁⟩], []⟩,
         .reject 401 "INVALID_CREDENTIALS") :=
    loginFailure_monitored ⟨[], [], [], []⟩ ip email t₁ 1 rfl
      (countRecentFailedLogins_uniform [] [] [] ip [t₁] t₁
        (by intro u hu; simp at hu; omega))
      (by omega)
  have e₂ : loginFailure .ok ⟨[], [], [⟨ip, "login", "failed", t₁⟩], []⟩ ip email t₂
      = (⟨[], [],
          [⟨ip, "login", "failed", t₁⟩, ⟨ip, "login", "failed", t₂⟩], []⟩,
         .reject 401 "INVALID_CREDENTIALS") :=
    loginFailure_monitored _ ip email t₂ 2 rfl
      (countRecentFailedLogins_uniform [] [] [] ip [t₁, t₂] t₂
        (by intro u hu; simp at hu; rcases hu with rfl | rfl <;> omega))
      (by omega)
  have e₃ : loginFailure .ok
      ⟨[], [], [⟨ip, "login", "failed", t₁⟩, ⟨ip, "login", "failed", t₂⟩], []⟩
      ip email t₃
      = (⟨[], [],
          [⟨ip, "login", "failed", t₁⟩, ⟨ip, "login", "failed", t₂⟩,
           ⟨ip, "login", "failed", t₃⟩], []⟩,
         .reject 401 "INVALID_CREDENTIALS") :=
    loginFailure_monitored _ ip email t₃ 3 rfl
      (countRecentFailedLogins_uniform [] [] [] ip [t₁, t₂, t₃] t₃
        (by intro u hu; simp at hu; rcases hu with rfl | rfl | rfl <;> omega))
      (by omega)
  have e₄ : loginFailure .ok
      ⟨[], [],
       [⟨ip, "login", "failed", t₁⟩, ⟨ip, "login", "failed", t₂⟩,
        ⟨ip, "login", "failed", t₃⟩], []⟩ ip email t₄
      = (⟨[], [],
          [⟨ip, "login", "failed", t₁⟩, ⟨ip, "login", "failed", t₂⟩,
           ⟨ip, "login", "failed", t₃⟩, ⟨ip, "login", "failed", t₄⟩], []⟩,
         .reject 401 "INVALID_CREDENTIALS") :=
    loginFailure_monitored _ ip email t₄ 4 rfl
      (countRecentFailedLogins_uniform [] [] [] ip [t₁, t₂, t₃, t₄] t₄
        (by intro u hu; simp at hu; rcases hu with rfl | rfl | rfl | rfl <;> omega))
      (by omega)
  have e₅ : loginFailure .ok
      ⟨[], [],
       [⟨ip, "login", "failed", t₁⟩, ⟨ip, "login", "failed", t₂⟩,
        ⟨ip, "login", "failed", t₃⟩, ⟨ip, "login", "failed", t₄⟩], []⟩
      ip email t₅
      = (⟨[bruteForceEvent ip 5],
          [{ ipAddress := ip, reason := "brute_force_attack",
             blockType := "automatic", blockedBy := none,
             expiresAt := some (t₅ + 60 * 60 * 1000), isActive := true,
             violationCount := 1,
             notes := "Blocked due to failed login attempts",
             unblockedBy := none }],
          [⟨ip, "login", "failed", t₁⟩, ⟨ip, "login", "failed", t₂⟩,
           ⟨ip, "login", "failed", t₃⟩, ⟨ip, "login", "failed", t₄⟩,
           ⟨ip, "login", "failed", t₅⟩],
          ["Brute Force Attack Blocked"]⟩,
         .reject 401 "INVALID_CREDENTIALS") :=
    loginFailure_threshold _ ip email t₅ 5 rfl
      (countRecentFailedLogins_uniform [] [] [] ip [t₁, t₂, t₃, t₄, t₅] t₅
        (by intro u hu; simp at hu
            rcases hu with rfl | rfl | rfl | rfl | rfl <;> omega))
      (by omega)
  have e₆ : loginFailure .ok
      ⟨[bruteForceEvent ip 5],
       [{ ipAddress := ip, reason := "brute_force_attack",
          blockType := "automatic", blockedBy := none,
          expiresAt := some (t₅ + 60 * 60 * 1000), isActive := true,
          violationCount := 1,
          notes := "Blocked due to failed login attempts",
          unblockedBy := none }],
       [⟨ip, "login", "failed", t₁⟩, ⟨ip, "login", "failed", t₂⟩,
        ⟨ip, "login", "failed", t₃⟩, ⟨ip, "login", "failed", t₄⟩,
        ⟨ip, "login", "failed", t₅⟩],
       ["Brute Force Attack Blocked"]⟩ ip email t₆
      = (⟨[bruteForceEvent ip 5],
          [{ ipAddress := ip, reason := "brute_force_attack",
             blockType := "automatic", blockedBy := none,
             expiresAt := some (t₅ + 60 * 60 * 1000), isActive := true,
             violationCount := 1,
             notes := "Blocked due to failed login attempts",
             unblockedBy := none }],
          [⟨ip, "login", "failed", t₁⟩, ⟨ip, "login", "failed", t₂⟩,
           ⟨ip, "login", "failed", t₃⟩, ⟨ip, "login", "failed", t₄⟩,
           ⟨ip, "login", "failed", t₅⟩],
          ["Brute Force Attack Blocked"]⟩,
         .reject 403 "IP_BLOCKED") :=
    loginFailure_blocked _ ip email t₆ .ok
      (by simp [isBlocked]; omega)
  simp only [runFailedLogins, e₁, e₂, e₃, e₄, e₅, e₆]

/-- Witness for C2 (amended) at concrete inputs: five failures at times
10..14 and a sixth attempt at 15 leave exactly the single brute_force
event. -/
theorem brute_force_single_event_witness :
    (runFailedLogins .ok "7.7.7.7" "u@e" ⟨[], [], [], []⟩
        [10, 11, 12, 13, 14, 15]).1.events = [bruteForceEvent "7.7.7.7" 5] := by
  rw [brute_force_single_event "7.7.7.7" "u@e" 10 11 12 13 14 15 (by decide)
    (by decide) (by decide) (by decide) (by decide) (by decide) (by decide)]

/-- C8 counterexample.  With the block write failing, analyzeLoginAttempt
resolves normally (isOk, never an error): the storage error does not
propagate to the caller of the detection action, and the resolved value
carries threat false — a non-threat result, merely tagged with action
error. -/
theorem analyzeLoginAttempt_swallows_block_error_cex :
    (analyzeLoginAttempt (.fail "storage down") fiveFailuresState "3.3.3.3"
        "a@b" false 900000).isOk = true
    ∧ (analyzeLoginAttempt (.fail "storage down") fiveFailuresState "3.3.3.3"
        "a@b" false 900000).toOption.map (fun r => r.2.threat) = some false
    ∧ (analyzeLoginAttempt (.fail "storage down") fiveFailuresState "3.3.3.3"
        "a@b" false 900000).toOption.map (fun r => r.2.action)
        = some "error" := by
  decide

/-- C8 (amended).  A storage error in blockIP or unblockIP propagates
uncaught out of the model statics to their immediate caller; the invoking
detection operation analyzeLoginAttempt, however, catches it and resolves
normally with threat false, action error and the error message — the
failure is reported only inside the fields of a non-threat result, never by
propagation, and the block is not applied while the IntrusionEvent created
before the failure remains. -/
theorem blockIP_error_caught_in_analyzer (m : String) (reg : BlockRegistry)
    (ip reason : String) (opts : BlockOptions) (t : Nat)
    (actor : Option String) (st : SysState) (email : String) (n : Nat)
    (hn : countRecentFailedLogins st ip t = n) (h5 : 5 ≤ n) :
    blockIPStatic (.fail m) reg ip reason opts t = .error m
    ∧ unblockIPStatic (.fail m) reg ip actor = .error m
    ∧ analyzeLoginAttempt (.fail m) st ip email false t
        = .ok ({ st with events := st.events ++ [bruteForceEvent ip n] },
               { threat := false, action := "error", errorMsg := some m }) := by
  refine ⟨rfl, rfl, ?_⟩
  unfold analyzeLoginAttempt
  rw [hn, if_pos h5]
  simp [blockIPStatic]

/-- Witness for C8 (amended) at concrete inputs: five recent failures and a
failing block write. -/
theorem blockIP_error_caught_in_analyzer_witness :
    analyzeLoginAttempt (.fail "db down") fiveFailuresState "3.3.3.3" "x@y"
        false 900000
      = .ok ({ fiveFailuresState with
               events := fiveFailuresState.events
                 ++ [bruteForceEvent "3.3.3.3" 5] },
             { threat := false, action := "error", errorMsg := some "db down" }) :=
  (blockIP_error_caught_in_analyzer "db down" [] "3.3.3.3" "r" {} 900000 none
    fiveFailuresState "x@y" 5 (by decide) (by decide)).2.2

end CyberIDS
